import Mathlib

/-!
Verification development for the DASCRUBBER wrapper
(`dascrubber_wrapper.py`): a shallow embedding of the read-identity
translation, parameter-derivation and reverse-translation logic, with
theorems settling the specification claims.

Modelling conventions:
* Python strings are modelled as `List Char` (named `Str`); bytes as `Nat`.
* Python floats are modelled by exact rational arithmetic: either as `ℚ`
  (where the value stays symbolic) or as an explicit numerator/denominator
  pair of integers (where concrete evaluation is needed).
* `sys.exit(...)` and uncaught exceptions (`KeyError`, `IndexError`,
  `StopIteration`) are both fatal process aborts; fallible code returns
  `Except Str _` or `Option _`, with the error value recording the abort.
* Output to stderr (progress counters, colours, logging) has no bearing on
  control flow and is not modelled.
-/

/-- Python strings are modelled as lists of characters. -/
abbrev Str := List Char

/-- Characters treated as whitespace by Python's `str.strip()`
(space, tab, newline, carriage return, vertical tab, form feed). -/
def pyIsSpace (c : Char) : Bool :=
  (c = ' ') || (c = '\t') || (c = '\n') || (c = '\r') || (c = '\x0b') || (c = '\x0c')

/-- Model of Python `str.lstrip()`. -/
def pyStripLeft (s : Str) : Str := s.dropWhile pyIsSpace

/-- Model of Python `str.strip()`: drop whitespace from both ends. -/
def pyStrip (s : Str) : Str := ((pyStripLeft s).reverse.dropWhile pyIsSpace).reverse

/-- Model of Python `s.split(c, 1)` (at most one split): returns the part
before the first occurrence of `c` and, if `c` occurs, the part after it. -/
def pySplit1 (c : Char) : Str → Str × Option Str
  | [] => ([], none)
  | x :: xs =>
    if x = c then ([], some xs)
    else
      let p := pySplit1 c xs
      (x :: p.1, p.2)

/-- Model of Python `s.split(c)` (no maxsplit): split at every occurrence
of `c`; always returns at least one (possibly empty) part. -/
def splitOnChar (c : Char) : Str → List Str
  | [] => [[]]
  | x :: xs =>
    match splitOnChar c xs with
    | [] => [[]]
    | h :: t => if x = c then [] :: h :: t else (x :: h) :: t

/-- Numeric value of a list of decimal digit characters (most significant
first), as used when evaluating Python's `int()`/`float()` on digit runs. -/
def digitsVal (s : Str) : Nat :=
  s.foldl (fun acc c => acc * 10 + (c.toNat - '0'.toNat)) 0

/-- Parse a nonempty all-digit string to a natural number; `none` otherwise. -/
def digitsToNat (s : Str) : Option Nat :=
  if s = [] then none
  else if s.all Char.isDigit then some (digitsVal s)
  else none

/-- Model of the ASCII-decimal fragment of Python `int(str)`: optional
surrounding whitespace, optional sign, then a nonempty run of decimal
digits.  (Underscore separators and non-ASCII digits are not modelled.) -/
def pyInt (s : Str) : Option Int :=
  match pyStrip s with
  | '-' :: rest => (digitsToNat rest).map (fun n => -(n : Int))
  | '+' :: rest => (digitsToNat rest).map (fun n => (n : Int))
  | t => (digitsToNat t).map (fun n => (n : Int))

/-- Model of the plain-decimal fragment of Python `float(str)` returning the
exact value as a fraction `(numerator, denominator)` with positive
denominator a power of ten: optional surrounding whitespace, optional sign,
decimal digits with at most one dot and at least one digit overall.
(Exponent notation, `inf`/`nan` and underscores are not modelled; the float's
rounding to binary is modelled as exact rational arithmetic.) -/
def pyFloatFrac (s : Str) : Option (Int × Int) :=
  let core : Str → Option (Int × Int) := fun u =>
    match splitOnChar '.' u with
    | [ip] =>
      if ip ≠ [] ∧ ip.all Char.isDigit then some ((digitsVal ip : Int), 1) else none
    | [ip, fp] =>
      if (ip ++ fp) ≠ [] ∧ (ip ++ fp).all Char.isDigit then
        some ((digitsVal ip : Int) * 10 ^ fp.length + (digitsVal fp : Int), (10 : Int) ^ fp.length)
      else none
    | _ => none
  match pyStrip s with
  | '-' :: rest => (core rest).map (fun p => (-p.1, p.2))
  | '+' :: rest => core rest
  | t => core t

/-- Round half to even (Python's `round()` applied to the exact rational
value `n / d`, `d > 0`). -/
def roundHalfEven (n d : Int) : Int :=
  let q := Int.fdiv n d
  let r := n - q * d
  if 2 * r < d then q
  else if d < 2 * r then q + 1
  else if q % 2 = 0 then q else q + 1

/-- Model of Python `round(x)` on an exact rational. -/
def pyRound (x : ℚ) : Int := roundHalfEven x.num (x.den : Int)

/-- Decimal digits of a natural number, most significant first (model of
Python `str(n)` for `n ≥ 0`); fuel-structured so that it reduces by `rfl`. -/
def natDigitsAux (fuel n : Nat) : Str :=
  match fuel with
  | 0 => []
  | fuel + 1 =>
    if n < 10 then [Nat.digitChar n]
    else natDigitsAux fuel (n / 10) ++ [Nat.digitChar (n % 10)]

/-- Model of Python `str(n)` for a natural number. -/
def natDigits (n : Nat) : Str := natDigitsAux (n + 1) n

/-- Model of Python `s.startswith(p)` for strings. -/
def pyStartswith (p s : String) : Bool := p.data.isPrefixOf s.data

/-! ## Genome size parsing (`parse_genome_size`, source lines 174–204) -/

/-- Result of `parse_genome_size`: either a fatal `sys.exit`, or the parsed
size together with whether a (non-fatal) advisory warning was printed. -/
inductive GsResult where
  | fatal : GsResult
  | ok (size : Int) (advisory : Bool) : GsResult
deriving DecidableEq

/-- The `try` block of `parse_genome_size`: lower-case the string, read an
optional `g`/`m`/`k` suffix, then parse the remaining magnitude either as a
float (if it contains a dot, applying `round`) or as an integer, scaled by
the suffix multiplier.  `none` models the caught `ValueError`/`IndexError`
(fatal). -/
def parse_genome_size_core (s : Str) : Option Int :=
  let t := s.map Char.toLower
  match t.getLast? with
  | none => none
  | some last =>
    let value_str := if last = 'g' ∨ last = 'm' ∨ last = 'k' then t.dropLast else t
    let multiplier : Int :=
      if last = 'g' then 1000000000
      else if last = 'm' then 1000000
      else if last = 'k' then 1000
      else 1
    if value_str.contains '.' then
      (pyFloatFrac value_str).map (fun p => roundHalfEven (p.1 * multiplier) p.2)
    else
      (pyInt value_str).map (fun i => i * multiplier)

/-- Model of `parse_genome_size`: fatal on an unparseable magnitude or a
size below 1; advisory (but non-fatal) on sizes below 100 or above 1e11. -/
def parse_genome_size (s : Str) : GsResult :=
  match parse_genome_size_core s with
  | none => .fatal
  | some g =>
    if g < 1 then .fatal
    else if g < 100 then .ok g true
    else if g > 100000000000 then .ok g true
    else .ok g false

/-! ## Compression detection (`get_compression_type`, source lines 507–528) -/

/-- The `magic_dict` of `get_compression_type`, in Python insertion order:
each file type is paired with a tuple of *single-byte* patterns (the bytes of
the real multi-byte magic numbers, listed individually). -/
def magic_dict : List (String × List (List Nat)) :=
  [("gz", [[0x1f], [0x8b], [0x08]]),
   ("bz2", [[0x42], [0x5a], [0x68]]),
   ("zip", [[0x50], [0x4b], [0x03], [0x04]])]

/-- The source's `max_len = max(len(x) for x in magic_dict)`: iterating a
dict yields its *keys*, so this is the maximum length of the key strings
("gz", "bz2", "zip"), namely 3 — not a property of the byte patterns. -/
def max_len : Nat := (magic_dict.map (fun p => p.1.length)).foldl max 0

/-- The classification loop of `get_compression_type`: read the first
`max_len` bytes, and for each dict entry (in order) overwrite the result
when the file start begins with *any* of the entry's one-byte patterns
(Python `bytes.startswith` with a tuple argument). -/
def classify_compression (fileBytes : List Nat) : String :=
  let file_start := fileBytes.take max_len
  magic_dict.foldl
    (fun ct p => if (p.2).any (fun m => m.isPrefixOf file_start) then p.1 else ct)
    "plain"

/-- Model of `get_compression_type`: classify, then `sys.exit` on `bz2` or
`zip`; otherwise return the classification (`plain` or `gz`). -/
def get_compression_type (fileBytes : List Nat) : Except String String :=
  let ct := classify_compression fileBytes
  if ct = "bz2" then .error "Error: bzip2 format not supported"
  else if ct = "zip" then .error "Error: zip format not supported"
  else .ok ct

deriving instance DecidableEq for Except

/-! ## Read ingestion (`rename_reads_with_fake_pacbio_names`, lines 216–282)

The input file is modelled as its list of lines.  The loop reads a header
line, checks its sigil (`>` for FASTA, `@` for FASTQ), strips and splits it
into identifier and optional comment, rejects duplicate identifiers, then
consumes exactly one sequence line (plus, for FASTQ, two further lines that
are discarded).  Running off the end of the file inside a record is an
uncaught `StopIteration` (fatal). -/

/-- Container format, decided from the first character of the file. -/
inductive FileType where
  | FASTA : FileType
  | FASTQ : FileType
deriving DecidableEq

/-- State of the ingestion loop: the `read_names` set, the two registry
dicts (`read_name_dict`, `read_comment_dict`, keyed by the Python int
`read_num`), the records written to `renamed_reads.fasta`, the counter and
the running base total. -/
structure IngestState where
  readNames : List Str
  nameDict : Int → Option Str
  commentDict : Int → Option (Option Str)
  renamed : List (Str × Str)
  counter : Nat
  baseTotal : Nat

/-- The initial ingestion state (empty set, empty dicts, counter 0). -/
def initIngestState : IngestState :=
  { readNames := [], nameDict := fun _ => none, commentDict := fun _ => none,
    renamed := [], counter := 0, baseTotal := 0 }

/-- The header `try` block: check the format sigil on the raw line, strip
the rest, and require it nonempty.  An empty raw line models the impossible
`IndexError` on `header[0]` (also fatal). -/
def processHeader (ftype : FileType) (line : Str) : Except Str Str :=
  match line with
  | [] => .error "IndexError".data
  | c :: _ =>
    let sigil : Char := match ftype with | .FASTA => '>' | .FASTQ => '@'
    if c = sigil then
      let header := pyStrip (line.drop 1)
      if header = [] then .error "Error: failed to parse read header".data
      else .ok header
    else .error "Error: failed to parse read header".data

/-- The fatal duplicate-identifier message. -/
def dupMsg (old_name : Str) : Str := "Error: duplicate read name: ".data ++ old_name

/-- Process one record's header and sequence line: parse and split the
header, fail on a duplicate identifier, register the identifier and comment
at index `counter`, write the renamed record and accumulate its length. -/
def processRecord (ftype : FileType) (line seqLine : Str) (st : IngestState) :
    Except Str IngestState :=
  match processHeader ftype line with
  | .error e => .error e
  | .ok header =>
    let pr := pySplit1 ' ' header
    let old_name := pr.1
    if old_name ∈ st.readNames then .error (dupMsg old_name)
    else
      let seq := pyStrip seqLine
      let read_num := st.counter
      let new_header := "reads/".data ++ natDigits read_num ++ "/0_".data ++ natDigits seq.length
      .ok { readNames := old_name :: st.readNames,
            nameDict := fun k => if k = (read_num : Int) then some old_name else st.nameDict k,
            commentDict := fun k => if k = (read_num : Int) then some pr.2 else st.commentDict k,
            renamed := st.renamed ++ [(new_header, seq)],
            counter := read_num + 1,
            baseTotal := st.baseTotal + seq.length }

/-- Ingestion loop for FASTA input: two lines per record (header and a
single sequence line).  A header with no following line dies on
`seq = next(seq_file)` after the duplicate check. -/
def ingestFasta : List Str → IngestState → Except Str IngestState
  | [], st => .ok st
  | [line], st =>
    match processHeader .FASTA line with
    | .error e => .error e
    | .ok header =>
      if (pySplit1 ' ' header).1 ∈ st.readNames then .error (dupMsg (pySplit1 ' ' header).1)
      else .error "StopIteration".data
  | line :: seqLine :: rest, st =>
    match processRecord .FASTA line seqLine st with
    | .error e => .error e
    | .ok st' => ingestFasta rest st'

/-- Ingestion loop for FASTQ input: four lines per record; the separator
and quality lines are consumed and discarded without validation.  A record
truncated before its fourth line dies on an uncaught `StopIteration`
(after the state updates for the record have already happened). -/
def ingestFastq : List Str → IngestState → Except Str IngestState
  | [], st => .ok st
  | [line], st =>
    match processHeader .FASTQ line with
    | .error e => .error e
    | .ok header =>
      if (pySplit1 ' ' header).1 ∈ st.readNames then .error (dupMsg (pySplit1 ' ' header).1)
      else .error "StopIteration".data
  | [line, seqLine], st =>
    match processRecord .FASTQ line seqLine st with
    | .error e => .error e
    | .ok _ => .error "StopIteration".data
  | [line, seqLine, _plus], st =>
    match processRecord .FASTQ line seqLine st with
    | .error e => .error e
    | .ok _ => .error "StopIteration".data
  | line :: seqLine :: _plus :: _qual :: rest, st =>
    match processRecord .FASTQ line seqLine st with
    | .error e => .error e
    | .ok st' => ingestFastq rest st'

/-- Ingestion over a whole file for either format. -/
def ingest (ftype : FileType) (lines : List Str) (st : IngestState) :
    Except Str IngestState :=
  match ftype with
  | .FASTA => ingestFasta lines st
  | .FASTQ => ingestFastq lines st

/-- Model of `rename_reads_with_fake_pacbio_names`: run ingestion from the
empty state and return the two registry dicts together with the coverage
depth `base_total / genome_size` (exact rational). -/
def rename_reads_with_fake_pacbio_names (ftype : FileType) (lines : List Str)
    (genome_size : Int) :
    Except Str ((Int → Option Str) × (Int → Option (Option Str)) × ℚ) :=
  match ingest ftype lines initIngestState with
  | .error e => .error e
  | .ok st => .ok (st.nameDict, st.commentDict, (st.baseTotal : ℚ) / (genome_size : ℚ))

/-! ## External stage command construction (lines 285–448)

Each stage is an opaque external invocation; what the core controls is the
token list passed to it.  Derived numeric flags are merged in front of the
caller-supplied options only when no caller token already carries the same
flag prefix. -/

/-- The derived `-s` block size for `DBsplit` (`create_dazzler_db`):
omitted entirely when the caller already supplied a `-s` option. -/
def dbsplit_split_opt (dbsplit_options : List String) : List String :=
  if dbsplit_options.any (fun x => pyStartswith "-s" x) then [] else ["-s100"]

/-- The full `DBsplit` command line. -/
def dbsplit_command (dbsplit_options : List String) : List String :=
  ["DBsplit"] ++ dbsplit_split_opt dbsplit_options ++ dbsplit_options ++ ["reads"]

/-- The `fasta2DB` command line. -/
def fasta2DB_command : List String := ["fasta2DB", "reads.db", "renamed_reads.fasta"]

/-- The first `daligner` command line (`align_reads`). -/
def daligner_command (daligner_options : List String) : List String :=
  ["daligner", "-v", "-Palign_temp"] ++ daligner_options ++ ["reads", "reads"]

/-- The derived `-c` repeat threshold for `REPmask` (`mask_repeats_1`):
`round(depth * repeat_depth)` — omitted entirely when the caller already
supplied a `-c` option. -/
def repmask_threshold_opt (repmask_options : List String) (depth repeat_depth : ℚ) :
    List String :=
  if repmask_options.any (fun x => pyStartswith "-c" x) then []
  else ["-c" ++ toString (pyRound (depth * repeat_depth))]

/-- The full `REPmask` command line. -/
def repmask_command (repmask_options : List String) (depth repeat_depth : ℚ) :
    List String :=
  ["REPmask", "-v"] ++ repmask_threshold_opt repmask_options depth repeat_depth ++
    repmask_options ++ ["reads", "reads.reads.las"]

/-- The `datander` command line (`mask_repeats_2`). -/
def datander_command (datander_options : List String) : List String :=
  ["datander", "-v", "-Palign_temp"] ++ datander_options ++ ["reads"]

/-- The `TANmask` command line (`mask_repeats_3`). -/
def tanmask_command (tanmask_options : List String) : List String :=
  ["TANmask", "-v"] ++ tanmask_options ++ ["reads", "TAN.reads"]

/-- The second `daligner` command line (`align_reads_with_masking`). -/
def daligner_masked_command (daligner_options : List String) : List String :=
  ["daligner", "-v", "-Palign_temp", "-mrep", "-mtan"] ++ daligner_options ++
    ["reads", "reads"]

/-- The `DAScover` command line (`estimate_coverage`). -/
def dascover_command (dascover_options : List String) : List String :=
  ["DAScover", "-v"] ++ dascover_options ++ ["reads", "reads.reads.las"]

/-- The derived `-c` coverage for `DASqv` (`intrinsic_quality`):
`round(depth)` — omitted entirely when the caller already supplied a `-c`
option. -/
def dasqv_depth_opt (dasqv_options : List String) (depth : ℚ) : List String :=
  if dasqv_options.any (fun x => pyStartswith "-c" x) then []
  else ["-c" ++ toString (pyRound depth)]

/-- The full `DASqv` command line. -/
def dasqv_command (dasqv_options : List String) (depth : ℚ) : List String :=
  ["DASqv", "-v"] ++ dasqv_depth_opt dasqv_options depth ++ dasqv_options ++
    ["reads", "reads.reads.las"]

/-- The `DAStrim` command line (`trim`): caller options are passed straight
through; nothing is derived for this stage and no output of an earlier
stage is consulted. -/
def trim_command (dastrim_options : List String) : List String :=
  ["DAStrim", "-v"] ++ dastrim_options ++ ["reads", "reads.reads.las"]

/-- The `DASpatch` command line (`patch`). -/
def daspatch_command (daspatch_options : List String) : List String :=
  ["DASpatch", "-v"] ++ daspatch_options ++ ["reads", "reads.reads.las"]

/-- The `DASedit` command line (`new_db`). -/
def dasedit_command (dasedit_options : List String) : List String :=
  ["DASedit", "-v"] ++ dasedit_options ++ ["reads", "patched_reads"]

/-- The `DB2fasta` command line (`extract_reads`). -/
def db2fasta_command : List String := ["DB2fasta", "-vU", "patched_reads"]

/-- The full sequence of external invocations assembled by `main`, in
order. -/
structure PipelineCommands where
  fasta2DB_cmd : List String
  dbsplit_cmd : List String
  daligner1_cmd : List String
  repmask_cmd : List String
  datander_cmd : List String
  tanmask_cmd : List String
  daligner2_cmd : List String
  dascover_cmd : List String
  dasqv_cmd : List String
  dastrim_cmd : List String
  daspatch_cmd : List String
  dasedit_cmd : List String
  db2fasta_cmd : List String
deriving DecidableEq

/-- Model of `main`'s stage sequence up to command construction: ingestion
runs first, and only if it succeeds are the external stage command lines
derived (from the depth and the caller option lists).  An ingestion error
aborts before any external stage command exists. -/
def runPipeline (ftype : FileType) (lines : List Str) (genome_size : Int)
    (repeat_depth : ℚ)
    (dbsplit_options daligner_options repmask_options datander_options
     tanmask_options dascover_options dasqv_options dastrim_options
     daspatch_options dasedit_options : List String) :
    Except Str PipelineCommands :=
  match ingest ftype lines initIngestState with
  | .error e => .error e
  | .ok st =>
    let depth : ℚ := (st.baseTotal : ℚ) / (genome_size : ℚ)
    .ok { fasta2DB_cmd := fasta2DB_command,
          dbsplit_cmd := dbsplit_command dbsplit_options,
          daligner1_cmd := daligner_command daligner_options,
          repmask_cmd := repmask_command repmask_options depth repeat_depth,
          datander_cmd := datander_command datander_options,
          tanmask_cmd := tanmask_command tanmask_options,
          daligner2_cmd := daligner_masked_command daligner_options,
          dascover_cmd := dascover_command dascover_options,
          dasqv_cmd := dasqv_command dasqv_options depth,
          dastrim_cmd := trim_command dastrim_options,
          daspatch_cmd := daspatch_command daspatch_options,
          dasedit_cmd := dasedit_command dasedit_options,
          db2fasta_cmd := db2fasta_command }

/-! ## Reverse translation (`output_reads`, lines 450–497) -/

/-- The optional comment suffix appended to an output header. -/
def commentSuffix : Option Str → Str
  | some cm => ' ' :: cm
  | none => []

/-- Model of the inner `print_read`: split the synthetic name on `/`, parse
field 1 as the integer index and take field 2 as the range, look the index
up in both registry dicts, and emit the restored header together with the
sequence.  `none` models the uncaught `IndexError`/`ValueError`/`KeyError`
(fatal), in which case nothing is emitted for the record. -/
def print_read (names : Int → Option Str) (comments : Int → Option (Option Str))
    (new_name seq : Str) : Option (Str × Str) :=
  let parts := splitOnChar '/' new_name
  match parts[1]? with
  | none => none
  | some p1 =>
    match parts[2]? with
    | none => none
    | some read_range =>
      match pyInt p1 with
      | none => none
      | some read_num =>
        match names read_num with
        | none => none
        | some orig =>
          match comments read_num with
          | none => none
          | some c =>
            some ('>' :: (orig ++ '/' :: (read_range ++ commentSuffix c)), seq)

/-- The `output_reads` line loop: strip each line, skip blanks, start a new
record at each `>` line (emitting the previous record, if any), otherwise
accumulate sequence.  The final record is emitted at end of input.  The
result is the list of emitted records plus `some message` if the loop died
(an abort emits nothing for the offending record and processes no further
lines). -/
def outputLoop (names : Int → Option Str) (comments : Int → Option (Option Str)) :
    List Str → Str → Str → List (Str × Str) → List (Str × Str) × Option Str
  | [], nm, sq, acc =>
    if nm ≠ [] then
      match print_read names comments nm sq with
      | some r => (acc ++ [r], none)
      | none => (acc, some "KeyError".data)
    else (acc, none)
  | rawLine :: rest, nm, sq, acc =>
    match pyStrip rawLine with
    | [] => outputLoop names comments rest nm sq acc
    | c :: lrest =>
      if c = '>' then
        if nm ≠ [] then
          match print_read names comments nm sq with
          | some r => outputLoop names comments rest lrest [] (acc ++ [r])
          | none => (acc, some "KeyError".data)
        else outputLoop names comments rest lrest sq acc
      else outputLoop names comments rest nm (sq ++ (c :: lrest)) acc

/-- Model of `output_reads` over the lines of `scrubbed_reads.fasta`. -/
def output_reads (names : Int → Option Str) (comments : Int → Option (Option Str))
    (lines : List Str) : List (Str × Str) × Option Str :=
  outputLoop names comments lines [] [] []

/-! ## Helper lemmas on the string primitives -/

/-- Python `split` never returns an empty list of parts. -/
theorem splitOnChar_ne_nil (c : Char) (s : Str) : splitOnChar c s ≠ [] := by
  cases s with
  | nil => simp [splitOnChar]
  | cons x xs =>
    rw [splitOnChar]
    rcases h : splitOnChar c xs with _ | ⟨h1, t⟩
    · simp
    · split
      · simp
      · split <;> simp

/-- Splitting a string that does not contain the separator yields the whole
string as the single part. -/
theorem splitOnChar_no_sep (c : Char) (l : Str) (h : c ∉ l) : splitOnChar c l = [l] := by
  induction l with
  | nil => rfl
  | cons x xs ih =>
    have hx : ¬x = c := by rintro rfl; exact h (List.mem_cons_self x xs)
    have hxs : c ∉ xs := fun hm => h (List.mem_cons_of_mem _ hm)
    rw [splitOnChar, ih hxs]
    simp [hx]

/-- Splitting peels off the part before the first separator occurrence. -/
theorem splitOnChar_sep (c : Char) (l r : Str) (h : c ∉ l) :
    splitOnChar c (l ++ c :: r) = l :: splitOnChar c r := by
  induction l with
  | nil =>
    rw [List.nil_append, splitOnChar]
    rcases hh : splitOnChar c r with _ | ⟨a, t⟩
    · exact absurd hh (splitOnChar_ne_nil c r)
    · simp
  | cons x xs ih =>
    have hx : ¬x = c := by rintro rfl; exact h (List.mem_cons_self x xs)
    have hxs : c ∉ xs := fun hm => h (List.mem_cons_of_mem _ hm)
    rw [List.cons_append, splitOnChar, ih hxs]
    simp [hx]

/-- A one-split on a string without the separator returns it whole, with no
second part. -/
theorem pySplit1_no_sep (c : Char) (l : Str) (h : c ∉ l) : pySplit1 c l = (l, none) := by
  induction l with
  | nil => rfl
  | cons x xs ih =>
    have hx : ¬x = c := by rintro rfl; exact h (List.mem_cons_self x xs)
    have hxs : c ∉ xs := fun hm => h (List.mem_cons_of_mem _ hm)
    rw [pySplit1, ih hxs]
    simp [hx]

/-- A one-split cuts exactly at the first separator occurrence. -/
theorem pySplit1_sep (c : Char) (pre post : Str) (h : c ∉ pre) :
    pySplit1 c (pre ++ c :: post) = (pre, some post) := by
  induction pre with
  | nil => simp [pySplit1]
  | cons x xs ih =>
    have hx : ¬x = c := by rintro rfl; exact h (List.mem_cons_self x xs)
    have hxs : c ∉ xs := fun hm => h (List.mem_cons_of_mem _ hm)
    rw [List.cons_append, pySplit1, ih hxs]
    simp [hx]

/-- Classification of a nonempty byte stream depends only on its first
byte, because every pattern in `magic_dict` is a single byte. -/
theorem classify_compression_head (b : Nat) (t : List Nat) :
    classify_compression (b :: t) =
      if 0x50 = b ∨ 0x4b = b ∨ 0x03 = b ∨ 0x04 = b then "zip"
      else if 0x42 = b ∨ 0x5a = b ∨ 0x68 = b then "bz2"
      else if 0x1f = b ∨ 0x8b = b ∨ 0x08 = b then "gz"
      else "plain" := by
  simp only [classify_compression, magic_dict, max_len, List.map_cons, List.map_nil,
    List.foldl_cons, List.foldl_nil, List.any_cons, List.any_nil, List.take_succ_cons,
    List.isPrefixOf, Bool.and_true, Bool.or_false, Bool.or_eq_true, beq_iff_eq]

/-! ## Claims -/

/-- C4: genome-size parsing maps a magnitude string with optional
case-insensitive k/M/G suffix and fractional coefficient to an integer base
count — "3G" to 3,000,000,000; "5.5M" to 5,500,000; "800k" to 800,000;
"50" to 50 — and every input whose parsed value is zero or negative, and
every unparseable input, is fatal. -/
theorem claim_C4 :
    parse_genome_size "3G".data = .ok 3000000000 false ∧
    parse_genome_size "5.5M".data = .ok 5500000 false ∧
    parse_genome_size "800k".data = .ok 800000 false ∧
    parse_genome_size "50".data = .ok 50 true ∧
    parse_genome_size "0".data = .fatal ∧
    (∀ s g, parse_genome_size_core s = some g → g < 1 → parse_genome_size s = .fatal) ∧
    (∀ s, parse_genome_size_core s = none → parse_genome_size s = .fatal) := by
  refine ⟨by decide, by decide, by decide, by decide, by decide, ?_, ?_⟩
  · intro s g h hg
    simp [parse_genome_size, h, hg]
  · intro s h
    simp [parse_genome_size, h]

/-- Witness for C4: the fatal branches of the claim realized at the
concrete inputs "0" (parsed value zero) and "abc" (unparseable). -/
theorem claim_C4_witness :
    parse_genome_size "0".data = .fatal ∧ parse_genome_size "abc".data = .fatal :=
  ⟨claim_C4.2.2.2.2.2.1 "0".data 0 (by decide) (by decide),
   claim_C4.2.2.2.2.2.2 "abc".data (by decide)⟩

/-- C7: for every parsed genome size g, a value below 1 is fatal; a value
in [1, 100) or above 1e11 produces a non-fatal advisory and the run
proceeds with g unchanged; otherwise no advisory is emitted. -/
theorem claim_C7 (s : Str) (g : Int) (h : parse_genome_size_core s = some g) :
    (g < 1 → parse_genome_size s = .fatal) ∧
    (1 ≤ g → g < 100 → parse_genome_size s = .ok g true) ∧
    (g > 100000000000 → parse_genome_size s = .ok g true) ∧
    (100 ≤ g → g ≤ 100000000000 → parse_genome_size s = .ok g false) := by
  refine ⟨fun h1 => ?_, fun h1 h2 => ?_, fun h1 => ?_, fun h1 h2 => ?_⟩ <;>
    simp only [parse_genome_size, h] <;> split_ifs <;> first | rfl | omega

/-- Witness for C7: the small-size advisory branch realized at the
concrete input "50". -/
theorem claim_C7_witness : parse_genome_size "50".data = .ok 50 true :=
  (claim_C7 "50".data 50 (by decide)).2.1 (by decide) (by decide)

/-- C2: for each stage with a derived flag ('-s' for DBsplit, '-c' for
REPmask and DASqv), a caller token carrying the flag prefix suppresses the
derived token entirely; otherwise exactly one derived token is inserted:
"-s100" for DBsplit, "-c" ++ round(depth * repeat_depth) for REPmask, and
"-c" ++ round(depth) for DASqv. -/
theorem claim_C2 (depth repeat_depth : ℚ)
    (dbsplit_options repmask_options dasqv_options : List String) :
    ((dbsplit_options.any (fun x => pyStartswith "-s" x) = true →
        dbsplit_command dbsplit_options = ["DBsplit"] ++ dbsplit_options ++ ["reads"]) ∧
     (dbsplit_options.any (fun x => pyStartswith "-s" x) = false →
        dbsplit_command dbsplit_options =
          ["DBsplit", "-s100"] ++ dbsplit_options ++ ["reads"])) ∧
    ((repmask_options.any (fun x => pyStartswith "-c" x) = true →
        repmask_command repmask_options depth repeat_depth =
          ["REPmask", "-v"] ++ repmask_options ++ ["reads", "reads.reads.las"]) ∧
     (repmask_options.any (fun x => pyStartswith "-c" x) = false →
        repmask_command repmask_options depth repeat_depth =
          ["REPmask", "-v", "-c" ++ toString (pyRound (depth * repeat_depth))] ++
            repmask_options ++ ["reads", "reads.reads.las"])) ∧
    ((dasqv_options.any (fun x => pyStartswith "-c" x) = true →
        dasqv_command dasqv_options depth =
          ["DASqv", "-v"] ++ dasqv_options ++ ["reads", "reads.reads.las"]) ∧
     (dasqv_options.any (fun x => pyStartswith "-c" x) = false →
        dasqv_command dasqv_options depth =
          ["DASqv", "-v", "-c" ++ toString (pyRound depth)] ++ dasqv_options ++
            ["reads", "reads.reads.las"])) := by
  refine ⟨⟨?_, ?_⟩, ⟨?_, ?_⟩, ⟨?_, ?_⟩⟩ <;> intro h <;>
    simp [dbsplit_command, dbsplit_split_opt, repmask_command, repmask_threshold_opt,
      dasqv_command, dasqv_depth_opt, h]

/-- Witness for C2: the three merge rules realized concretely — a caller
"-s50" suppresses the derived DBsplit token, an empty REPmask option list
receives the derived threshold, and a caller "-c20" suppresses the derived
DASqv coverage. -/
theorem claim_C2_witness :
    dbsplit_command ["-s50"] = ["DBsplit"] ++ ["-s50"] ++ ["reads"] ∧
    repmask_command [] 7 3 =
      ["REPmask", "-v", "-c" ++ toString (pyRound ((7 : ℚ) * 3))] ++ [] ++
        ["reads", "reads.reads.las"] ∧
    dasqv_command ["-c20"] 7 = ["DASqv", "-v"] ++ ["-c20"] ++ ["reads", "reads.reads.las"] :=
  ⟨(claim_C2 7 3 ["-s50"] [] ["-c20"]).1.1 (by decide),
   (claim_C2 7 3 ["-s50"] [] ["-c20"]).2.1.2 (by decide),
   (claim_C2 7 3 ["-s50"] [] ["-c20"]).2.2.1 (by decide)⟩

/-- Projection of the `DAStrim` command from a pipeline result, `none` when
the pipeline aborted before the stage commands were built. -/
def dastrimOf : Except Str PipelineCommands → Option (List String)
  | .ok c => some c.dastrim_cmd
  | .error _ => none

/-- C3 (amended): the orchestrator derives no g/b defaults for the trim
stage and never scans the quality stage's output — when the caller supplies
no -g or -b flag, the DAStrim invocation is the plain pass-through of the
caller options (with the fixed tokens), contains no -g or -b token, and the
run proceeds without any abort tied to recommendation parsing. -/
theorem claim_C3_amended (dastrim_options : List String)
    (hg : dastrim_options.any (fun x => pyStartswith "-g" x) = false)
    (hb : dastrim_options.any (fun x => pyStartswith "-b" x) = false) :
    trim_command dastrim_options =
      ["DAStrim", "-v"] ++ dastrim_options ++ ["reads", "reads.reads.las"] ∧
    (trim_command dastrim_options).any (fun x => pyStartswith "-g" x) = false ∧
    (trim_command dastrim_options).any (fun x => pyStartswith "-b" x) = false ∧
    (∀ ftype lines gs rd o1 o2 o3 o4 o5 o6 o7 o9 o10 cmds,
       runPipeline ftype lines gs rd o1 o2 o3 o4 o5 o6 o7 dastrim_options o9 o10 =
         .ok cmds →
       cmds.dastrim_cmd = trim_command dastrim_options) := by
  refine ⟨rfl, ?_, ?_, ?_⟩
  · rw [trim_command, List.any_append, List.any_append, hg]
    decide
  · rw [trim_command, List.any_append, List.any_append, hb]
    decide
  · intro ftype lines gs rd o1 o2 o3 o4 o5 o6 o7 o9 o10 cmds hrun
    rw [runPipeline] at hrun
    rcases h : ingest ftype lines initIngestState with e | st <;> rw [h] at hrun
    · exact absurd hrun (by simp)
    · simp only [Except.ok.injEq] at hrun
      rw [← hrun]

/-- Witness for C3 (amended): the pass-through realized at an empty caller
option list. -/
theorem claim_C3_witness :
    trim_command [] = ["DAStrim", "-v"] ++ ([] : List String) ++ ["reads", "reads.reads.las"] ∧
    (trim_command []).any (fun x => pyStartswith "-g" x) = false :=
  ⟨(claim_C3_amended [] (by decide) (by decide)).1,
   (claim_C3_amended [] (by decide) (by decide)).2.1⟩

/-- Counterexample for C3 as stated: on a concrete run whose caller
supplied no trim-stage options at all, the pipeline neither aborts nor
inserts any -g or -b token for DAStrim — the command is the bare pass-through,
contradicting the claimed scan-and-derive-or-abort behaviour. -/
theorem claim_C3_counterexample :
    dastrimOf (runPipeline .FASTA [">r".data, "ACGT".data] 1000 3
        [] [] [] [] [] [] [] [] [] []) =
      some ["DAStrim", "-v", "reads", "reads.reads.las"] ∧
    (["DAStrim", "-v", "reads", "reads.reads.las"] : List String).any
        (fun x => pyStartswith "-g" x || pyStartswith "-b" x) = false :=
  ⟨rfl, by decide⟩

/-- C8 (amended): ingestion splits a header at the first space character
(U+0020) — not at arbitrary whitespace: the identifier is everything before
the first space, the comment everything after it carried unchanged, and the
comment is absent when the header contains no space; the split parts are
exactly what gets registered for the record's index. -/
theorem claim_C8_amended :
    (∀ pre post : Str, (' ' : Char) ∉ pre →
       pySplit1 ' ' (pre ++ ' ' :: post) = (pre, some post)) ∧
    (∀ h : Str, (' ' : Char) ∉ h → pySplit1 ' ' h = (h, none)) ∧
    (∀ ftype line seqLine st st' header,
       processHeader ftype line = .ok header →
       processRecord ftype line seqLine st = .ok st' →
       st'.nameDict (st.counter : Int) = some (pySplit1 ' ' header).1 ∧
       st'.commentDict (st.counter : Int) = some (pySplit1 ' ' header).2) := by
  refine ⟨fun pre post h => pySplit1_sep ' ' pre post h,
          fun l h => pySplit1_no_sep ' ' l h, ?_⟩
  intro ftype line seqLine st st' header hh hr
  rw [processRecord, hh] at hr
  by_cases hdup : (pySplit1 ' ' header).1 ∈ st.readNames
  · simp [hdup] at hr
  · simp only [hdup, if_false] at hr
    simp only [Except.ok.injEq] at hr
    rw [← hr]
    simp

/-- Witness for C8 (amended): the space-split and registration realized on
the concrete header "id c1 c2" (identifier "id", comment "c1 c2"). -/
theorem claim_C8_witness :
    pySplit1 ' ' ("id".data ++ ' ' :: "c1 c2".data) = ("id".data, some "c1 c2".data) ∧
    pySplit1 ' ' "idonly".data = ("idonly".data, none) :=
  ⟨claim_C8_amended.1 "id".data "c1 c2".data (by decide),
   claim_C8_amended.2.1 "idonly".data (by decide)⟩

/-- Modelled from the spec's words (for comparison with the code): split a
header at the first interior whitespace character, identifier before it,
comment after it. -/
def specSplitHeader : Str → Str × Option Str
  | [] => ([], none)
  | x :: xs =>
    if pyIsSpace x then ([], some xs)
    else
      let p := specSplitHeader xs
      (x :: p.1, p.2)

/-- Counterexample for C8 as stated: on the concrete header "id\tc" (a tab
before any space) the code does not split at the first interior whitespace —
it returns the whole string as the identifier with no comment, while the
claimed whitespace split would return identifier "id" and comment "c". -/
theorem claim_C8_counterexample :
    pySplit1 ' ' "id\tc".data = ("id\tc".data, none) ∧
    specSplitHeader "id\tc".data = ("id".data, some "c".data) ∧
    pySplit1 ' ' "id\tc".data ≠ specSplitHeader "id\tc".data :=
  ⟨by decide, by decide, by decide⟩

/-- C10 (amended): compression classification depends only on the first
byte of the file, compared against single-byte patterns: gzip iff the first
byte is 0x1f, 0x8b or 0x08; bzip2 iff it is 0x42, 0x5a or 0x68; zip iff it
is 0x50, 0x4b, 0x03 or 0x04 — and a bzip2/zip classification (e.g. a
plain-text file starting with 'B' = 0x42) fatally rejects the run. -/
theorem claim_C10_amended (bytes : List Nat) (b : Nat) (hb : bytes.head? = some b) :
    (0x1f = b ∨ 0x8b = b ∨ 0x08 = b → get_compression_type bytes = .ok "gz") ∧
    (0x42 = b ∨ 0x5a = b ∨ 0x68 = b →
       get_compression_type bytes = .error "Error: bzip2 format not supported") ∧
    (0x50 = b ∨ 0x4b = b ∨ 0x03 = b ∨ 0x04 = b →
       get_compression_type bytes = .error "Error: zip format not supported") ∧
    (¬(0x1f = b ∨ 0x8b = b ∨ 0x08 = b) → ¬(0x42 = b ∨ 0x5a = b ∨ 0x68 = b) →
       ¬(0x50 = b ∨ 0x4b = b ∨ 0x03 = b ∨ 0x04 = b) →
       get_compression_type bytes = .ok "plain") ∧
    (∀ bytes', bytes'.head? = some b →
       classify_compression bytes' = classify_compression bytes) := by
  rcases bytes with _ | ⟨b0, t⟩
  · exact absurd hb (by simp)
  · simp only [List.head?_cons, Option.some.injEq] at hb
    subst hb
    refine ⟨fun h => ?_, fun h => ?_, fun h => ?_, fun h1 h2 h3 => ?_, fun bytes' hb' => ?_⟩
    · rcases h with h | h | h <;> subst h <;>
        simp [get_compression_type, classify_compression_head]
    · rcases h with h | h | h <;> subst h <;>
        simp [get_compression_type, classify_compression_head]
    · rcases h with h | h | h | h <;> subst h <;>
        simp [get_compression_type, classify_compression_head]
    · have hcl : classify_compression (b0 :: t) = "plain" := by
        rw [classify_compression_head]
        rw [if_neg h3, if_neg h2, if_neg h1]
      simp [get_compression_type, hcl]
    · rcases bytes' with _ | ⟨b1, t'⟩
      · exact absurd hb' (by simp)
      · simp only [List.head?_cons, Option.some.injEq] at hb'
        subst hb'
        rw [classify_compression_head, classify_compression_head]

/-- Witness for C10 (amended): the bzip2 rejection realized at a concrete
two-byte file starting with 0x42. -/
theorem claim_C10_witness :
    get_compression_type [0x42, 0x41] = .error "Error: bzip2 format not supported" :=
  (claim_C10_amended [0x42, 0x41] 0x42 rfl).2.1 (Or.inl rfl)

/-- Counterexample for C10 as stated: the claim says a file is classified
bzip2 iff its first byte is 0x42, but the concrete input starting with 0x5a
('Z') is also classified bzip2 and fatally rejected. -/
theorem claim_C10_counterexample :
    classify_compression [0x5a, 0x61, 0x62] = "bz2" ∧
    (0x5a : Nat) ≠ 0x42 ∧
    get_compression_type [0x5a, 0x61, 0x62] = .error "Error: bzip2 format not supported" :=
  ⟨rfl, by decide, rfl⟩

/-- C1: for a synthetic-named record `reads/<i>/<R>` whose index `i` is
registered, reverse translation emits the original identifier, a literal
'/', the range payload echoed verbatim, then a space and the original
comment exactly when one was registered (and nothing otherwise). -/
theorem claim_C1 (names : Int → Option Str) (comments : Int → Option (Option Str))
    (i : Int) (ds R orig : Str) (c : Option Str) (seq : Str)
    (hpi : pyInt ds = some i) (hds : ('/' : Char) ∉ ds) (hR : ('/' : Char) ∉ R)
    (hn : names i = some orig) (hc : comments i = some c) :
    print_read names comments ("reads/".data ++ ds ++ '/' :: R) seq =
      some ('>' :: (orig ++ '/' :: (R ++ commentSuffix c)), seq) := by
  have hform : ("reads/".data ++ ds ++ '/' :: R : Str) =
      "reads".data ++ '/' :: (ds ++ '/' :: R) := by simp
  have hsplit : splitOnChar '/' ("reads/".data ++ ds ++ '/' :: R) =
      ["reads".data, ds, R] := by
    rw [hform, splitOnChar_sep '/' "reads".data _ (by decide),
        splitOnChar_sep '/' ds _ hds, splitOnChar_no_sep '/' R hR]
  unfold print_read
  rw [hsplit]
  simp [hpi, hn, hc]

/-- Concrete registry for the C1 witness: index 5 carries identifier
"readA" with comment "extra info". -/
def w1names : Int → Option Str := fun k => if k = 5 then some "readA".data else none

/-- Concrete comment registry for the C1 witness. -/
def w1comments : Int → Option (Option Str) :=
  fun k => if k = 5 then some (some "extra info".data) else none

/-- Witness for C1: the round trip realized on the concrete record
`reads/5/0_100` with registered identifier "readA" and comment. -/
theorem claim_C1_witness :
    print_read w1names w1comments ("reads/".data ++ "5".data ++ '/' :: "0_100".data)
        "ACGT".data =
      some ('>' :: ("readA".data ++ '/' ::
        ("0_100".data ++ commentSuffix (some "extra info".data))), "ACGT".data) :=
  claim_C1 w1names w1comments 5 "5".data "0_100".data "readA".data
    (some "extra info".data) "ACGT".data (by decide) (by decide) (by decide)
    (by decide) (by decide)

/-- Duplicate registration is fatal whatever the rest of the record holds. -/
theorem processRecord_dup (ftype : FileType) (line seqLine : Str) (st : IngestState)
    (header : Str) (hh : processHeader ftype line = .ok header)
    (hmem : (pySplit1 ' ' header).1 ∈ st.readNames) :
    processRecord ftype line seqLine st = .error (dupMsg (pySplit1 ' ' header).1) := by
  rw [processRecord, hh]
  simp [hmem]

/-- C5: a record whose identifier (the header part before the first space)
is already registered makes ingestion abort fatally with the duplicate-name
error, regardless of the record's comment or sequence content — and any
ingestion error means no external stage command list is ever built. -/
theorem claim_C5 :
    (∀ ftype st line rest header,
       processHeader ftype line = .ok header →
       (pySplit1 ' ' header).1 ∈ st.readNames →
       ingest ftype (line :: rest) st = .error (dupMsg (pySplit1 ' ' header).1)) ∧
    (∀ ftype lines genome_size repeat_depth o1 o2 o3 o4 o5 o6 o7 o8 o9 o10 e,
       ingest ftype lines initIngestState = .error e →
       runPipeline ftype lines genome_size repeat_depth
         o1 o2 o3 o4 o5 o6 o7 o8 o9 o10 = .error e) := by
  constructor
  · intro ftype st line rest header hh hmem
    cases ftype with
    | FASTA =>
      rw [ingest]
      cases rest with
      | nil =>
        rw [ingestFasta, hh]
        simp [hmem]
      | cons a t =>
        rw [ingestFasta, processRecord_dup .FASTA line a st header hh hmem]
    | FASTQ =>
      rw [ingest]
      rcases rest with _ | ⟨a, _ | ⟨b, _ | ⟨c2, t⟩⟩⟩
      · rw [ingestFastq, hh]
        simp [hmem]
      · rw [ingestFastq, processRecord_dup .FASTQ line a st header hh hmem]
      · rw [ingestFastq, processRecord_dup .FASTQ line a st header hh hmem]
      · rw [ingestFastq, processRecord_dup .FASTQ line a st header hh hmem]
  · intro ftype lines genome_size repeat_depth o1 o2 o3 o4 o5 o6 o7 o8 o9 o10 e h
    rw [runPipeline, h]

/-- Ingestion state for the C5 witness: identifier "a" already registered. -/
def w5state : IngestState :=
  { readNames := ["a".data], nameDict := fun _ => none, commentDict := fun _ => none,
    renamed := [], counter := 1, baseTotal := 4 }

/-- Witness for C5: the duplicate-name abort realized on a concrete header
">a b" against a state that already holds "a", and on a concrete
whole-pipeline run over a file with two ">a" records. -/
theorem claim_C5_witness :
    ingest .FASTA [">a b".data] w5state = .error (dupMsg "a".data) ∧
    runPipeline .FASTA [">a".data, "ACGT".data, ">a".data, "GG".data] 1000 3
        [] [] [] [] [] [] [] [] [] [] = .error (dupMsg "a".data) :=
  ⟨claim_C5.1 .FASTA w5state ">a b".data [] "a b".data (by decide) (by decide),
   claim_C5.2 .FASTA [">a".data, "ACGT".data, ">a".data, "GG".data] 1000 3
     [] [] [] [] [] [] [] [] [] [] (dupMsg "a".data) rfl⟩

/-- C6: a record in the final intermediate file whose synthetic index was
never registered makes reverse translation abort fatally — the record is
not skipped, nothing is emitted for it, and no further line is processed —
both when the record is flushed at end of input and when it is flushed on
the next header line. -/
theorem claim_C6 (names : Int → Option Str) (comments : Int → Option (Option Str))
    (nm sq : Str) (acc : List (Str × Str)) (ds R : Str) (i : Int)
    (h1 : (splitOnChar '/' nm)[1]? = some ds)
    (h2 : (splitOnChar '/' nm)[2]? = some R)
    (h3 : pyInt ds = some i)
    (h4 : names i = none)
    (hnm : nm ≠ []) :
    print_read names comments nm sq = none ∧
    outputLoop names comments [] nm sq acc = (acc, some "KeyError".data) ∧
    (∀ rawLine rest lrest, pyStrip rawLine = '>' :: lrest →
       outputLoop names comments (rawLine :: rest) nm sq acc =
         (acc, some "KeyError".data)) := by
  have hpr : print_read names comments nm sq = none := by
    simp only [print_read, h1, h2, h3, h4]
  refine ⟨hpr, ?_, ?_⟩
  · rw [outputLoop]
    simp [hnm, hpr]
  · intro rawLine rest lrest hstrip
    rw [outputLoop, hstrip]
    simp [hnm, hpr]

/-- Empty name registry for the C6 witness. -/
def w6names : Int → Option Str := fun _ => none

/-- Empty comment registry for the C6 witness. -/
def w6comments : Int → Option (Option Str) := fun _ => none

/-- Witness for C6: the fatal unresolved-index abort realized on the
concrete record `reads/7/0_4` against an empty registry, at end of input. -/
theorem claim_C6_witness :
    print_read w6names w6comments "reads/7/0_4".data "ACGT".data = none ∧
    outputLoop w6names w6comments [] "reads/7/0_4".data "ACGT".data [] =
      ([], some "KeyError".data) :=
  ⟨(claim_C6 w6names w6comments "reads/7/0_4".data "ACGT".data [] "7".data "0_4".data 7
      (by decide) (by decide) (by decide) rfl (by decide)).1,
   (claim_C6 w6names w6comments "reads/7/0_4".data "ACGT".data [] "7".data "0_4".data 7
      (by decide) (by decide) (by decide) rfl (by decide)).2.1⟩

/-- C9: ingestion consumes exactly one sequence line per FASTA record and
exactly four lines per FASTQ record; hence on a FASTA record whose sequence
spans a second line, that second sequence line is processed as the next
header, fails the sigil check and the whole run aborts fatally. -/
theorem claim_C9 :
    (∀ line seqLine rest st st',
       processRecord .FASTA line seqLine st = .ok st' →
       ingestFasta (line :: seqLine :: rest) st = ingestFasta rest st') ∧
    (∀ line seqLine plusLine qualLine rest st st',
       processRecord .FASTQ line seqLine st = .ok st' →
       ingestFastq (line :: seqLine :: plusLine :: qualLine :: rest) st =
         ingestFastq rest st') ∧
    (∀ line seqLine c lrest tail st st',
       processRecord .FASTA line seqLine st = .ok st' →
       c ≠ '>' →
       ingestFasta (line :: seqLine :: (c :: lrest) :: tail) st =
         .error "Error: failed to parse read header".data) := by
  refine ⟨?_, ?_, ?_⟩
  · intro line seqLine rest st st' h
    rw [ingestFasta, h]
  · intro line seqLine plusLine qualLine rest st st' h
    rw [ingestFastq, h]
  · intro line seqLine c lrest tail st st' h hc
    have hph : processHeader .FASTA (c :: lrest) =
        .error "Error: failed to parse read header".data := by
      rw [processHeader]
      simp [hc]
    rw [ingestFasta, h]
    show ingestFasta ((c :: lrest) :: tail) st' =
      .error "Error: failed to parse read header".data
    cases tail with
    | nil => rw [ingestFasta, hph]
    | cons t1 ts => rw [ingestFasta, processRecord, hph]

/-- Witness for C9: the fatal multi-line-sequence abort realized on the
concrete FASTA file ">r" / "AC" / "GT" (the second sequence line "GT" is
read as a header), together with the exact two-line FASTA consumption on a
concrete valid record. -/
theorem claim_C9_witness :
    ingestFasta [">r".data, "AC".data, "GT".data] initIngestState =
      .error "Error: failed to parse read header".data :=
  claim_C9.2.2 ">r".data "AC".data 'G' "T".data [] initIngestState _ rfl (by decide)
